import Mathlib

/-!
Verification of the background-removal HTTP service (`app.py`).

The Python source is shallowly embedded: pure helpers (`allowed_file`,
`validate_image_file`) become Lean functions; the Flask request handler
`remove_background` becomes an explicit function from the global state
(the `rembg_session` singleton) and the request to a response paired with
the post-state; external collaborators (PIL decode/convert/save, the
`rembg.remove` call, `rembg.new_session`) are oracle functions supplied
in an environment record, with `Option` results standing for raised
exceptions. File streams carry an explicit read position so that the
`seek`/`tell` discipline of the validator can be stated.
-/

namespace RenderBG

/-! ## Configuration constants (app.py lines 36-37) -/

def MAX_FILE_SIZE : Nat := 10 * 1024 * 1024

def ALLOWED_EXTENSIONS : List String := ["png", "jpg", "jpeg", "webp"]

/-! ## File streams

An uploaded file as seen by the handler: a byte buffer, a current read
position and the declared filename.  `seek(0, SEEK_END)`, `tell()`,
`seek(0)` and `read()` are modelled as in CPython file-object semantics. -/

structure FileStream where
  content : List Nat
  pos : Nat
  filename : String
deriving DecidableEq, Repr

def FileStream.seekEnd (f : FileStream) : FileStream :=
  { f with pos := f.content.length }

def FileStream.tell (f : FileStream) : Nat := f.pos

def FileStream.seekStart (f : FileStream) : FileStream :=
  { f with pos := 0 }

def FileStream.read (f : FileStream) : List Nat × FileStream :=
  (f.content.drop f.pos, { f with pos := f.content.length })

/-! ## allowed_file (app.py lines 54-57)

`'.' in filename and filename.rsplit('.', 1)[1].lower() in ALLOWED_EXTENSIONS`:
`rsplit('.', 1)[1]` is the substring after the last dot. -/

def afterLastDot (s : String) : String :=
  String.mk ((s.data.reverse.takeWhile (fun c => c != '.')).reverse)

/-- Python `str.lower()`, character by character (ASCII case folding). -/
def strLower (s : String) : String :=
  String.mk (s.data.map Char.toLower)

def allowed_file (filename : String) : Bool :=
  filename.data.contains '.' &&
    ALLOWED_EXTENSIONS.contains (strLower (afterLastDot filename))

/-! ## validate_image_file (app.py lines 59-78)

Returns the `(ok, error_message)` pair together with the post-state of the
stream (the Python function mutates the stream via `seek`).  A `none`
input models a falsy `file` argument. -/

def FILE_TYPE_MSG : String :=
  "File type not allowed. Supported: " ++ String.intercalate ", " ALLOWED_EXTENSIONS

def FILE_TOO_LARGE_MSG : String :=
  "File too large. Maximum size: 10.0MB"

def validate_image_file : Option FileStream → (Bool × Option String) × Option FileStream
  | none => ((false, some "No file provided"), none)
  | some file =>
    if file.filename = "" then
      ((false, some "No file selected"), some file)
    else if ¬ allowed_file file.filename then
      ((false, some FILE_TYPE_MSG), some file)
    else
      let f1 := file.seekEnd
      let file_size := f1.tell
      let f2 := f1.seekStart
      if file_size > MAX_FILE_SIZE then
        ((false, some FILE_TOO_LARGE_MSG), some f2)
      else
        ((true, none), some f2)

/-! ## Sessions and global state (app.py lines 39-52) -/

structure Session where
  modelName : String
deriving DecidableEq, Repr

structure GlobalState where
  rembg_session : Option Session
deriving DecidableEq, Repr

/-- `init_model` (app.py lines 43-52): calls `new_session("isnet-general-use")`
and stores the handle in the global; on failure it logs and re-raises, here
`none`.  The oracle `new_session` returns `none` when the library raises. -/
def init_model (new_session : String → Option Session) (_g : GlobalState) :
    Option GlobalState :=
  match new_session "isnet-general-use" with
  | some s => some { rembg_session := some s }
  | none => none

/-- Outcome of the `__main__` block (app.py lines 236-249): either `app.run`
is reached with the state produced by `init_model`, or the exception from
`init_model` propagates and the listener never starts. -/
inductive StartupOutcome where
  | serving (g : GlobalState)
  | aborted
deriving DecidableEq, Repr

def main_startup (new_session : String → Option Session) : StartupOutcome :=
  match init_model new_session { rembg_session := none } with
  | some g => .serving g
  | none => .aborted

/-! ## External collaborators

PIL and rembg are outside the repository; the handler is parametric in
their behaviour.  `decode = none` models `Image.open` raising;
`removeBg = none` models `rembg.remove` raising.  `Env.convert` models
`img.convert(mode)`, whose result carries the requested mode. -/

structure PILImage where
  mode : String
  pix : Nat
deriving DecidableEq, Repr

structure Env where
  decode : List Nat → Option PILImage
  convertPix : Nat → Nat
  savePNG : PILImage → List Nat
  removeBg : List Nat → Bool → Option (List Nat)

def Env.convert (env : Env) (img : PILImage) (mode : String) : PILImage :=
  ⟨mode, env.convertPix img.pix⟩

/-! ## HTTP requests and responses -/

inductive Method where
  | OPTIONS
  | POST
deriving DecidableEq, Repr

structure Request where
  method : Method
  files_image : Option FileStream
deriving DecidableEq, Repr

inductive Body where
  | empty
  | jsonError (error message : String)
  | jsonHealth (status : String) (model : Option String) (err : Option String)
  | png (data : List Nat)
deriving DecidableEq, Repr

structure Response where
  status : Nat
  body : Body
deriving DecidableEq, Repr

/-! ## health_check (app.py lines 105-121)

The whole body sits in a `try`; `fault` is the exception (if any) raised
while computing the status, caught by the `except` branch. -/

def health_check (g : GlobalState) (fault : Option String) : Response :=
  match fault with
  | some e => ⟨503, .jsonHealth "unhealthy" none (some e)⟩
  | none =>
    ⟨200, .jsonHealth "healthy"
      (some (if g.rembg_session.isSome then "loaded" else "not_loaded")) none⟩

/-! ## remove_background (app.py lines 123-217) -/

def remove_background (env : Env) (g : GlobalState) (req : Request) :
    Response × GlobalState :=
  if req.method = Method.OPTIONS then
    (⟨204, .empty⟩, g)
  else
    match g.rembg_session with
    | none =>
      (⟨503, .jsonError "Service not ready" "Background removal model is not loaded"⟩, g)
    | some _ =>
      match req.files_image with
      | none =>
        (⟨400, .jsonError "Bad request" "No image file provided in request"⟩, g)
      | some file =>
        match validate_image_file (some file) with
        | ((false, error_message), _) =>
          (⟨400, .jsonError "Invalid file" (error_message.getD "")⟩, g)
        | ((true, _), fOpt) =>
          let input_data := ((fOpt.getD file).read).1
          match env.decode input_data with
          | none =>
            (⟨400, .jsonError "Invalid image"
              "Could not process image file. Please ensure it's a valid image."⟩, g)
          | some img0 =>
            let img :=
              if ¬ (img0.mode = "RGB" ∨ img0.mode = "RGBA") then
                env.convert img0 "RGB"
              else img0
            let input_data2 := env.savePNG img
            match env.removeBg input_data2 true with
            | none =>
              (⟨500, .jsonError "Internal server error"
                "An error occurred while processing your image. Please try again."⟩, g)
            | some output_data => (⟨200, .png output_data⟩, g)

/-! ## Concrete sample inputs (used to instantiate the theorems) -/

/-- An environment whose decoder always yields a small RGB image. -/
def trivEnv : Env :=
  ⟨fun _ => some ⟨"RGB", 0⟩, id, fun img => img.pix :: [137, 80, 78, 71], fun _ _ => some [0]⟩

/-- An environment whose decoder always yields a grayscale (mode "L") image. -/
def grayEnv : Env :=
  ⟨fun _ => some ⟨"L", 7⟩, id, fun img => [img.pix], fun _ _ => some [3]⟩

/-- An environment whose decoder always raises (`Image.open` fails). -/
def noDecodeEnv : Env :=
  ⟨fun _ => none, id, fun _ => [], fun _ _ => some [0]⟩

def loadedState : GlobalState := ⟨some ⟨"isnet-general-use"⟩⟩

def smallFile : FileStream := ⟨[1, 2, 3], 0, "cat.jpg"⟩

/-- A file one byte over the 10 MiB limit. -/
def bigFile : FileStream := ⟨List.replicate (MAX_FILE_SIZE + 1) 0, 0, "photo.png"⟩

/-! ## Helper lemmas -/

/-- Normal form of the validator on a present file: the four checks as a
chain of conditionals, with the stream's position reset to 0 whenever the
size check runs. -/
lemma validate_some_eq (f : FileStream) :
    validate_image_file (some f) =
      if f.filename = "" then ((false, some "No file selected"), some f)
      else if ¬ allowed_file f.filename then ((false, some FILE_TYPE_MSG), some f)
      else if f.content.length > MAX_FILE_SIZE then
        ((false, some FILE_TOO_LARGE_MSG), some { f with pos := 0 })
      else ((true, none), some { f with pos := 0 }) := rfl

/-- Zeta-reduced normal form of the handler, used to case on its branches. -/
lemma remove_background_eq (env : Env) (g : GlobalState) (req : Request) :
    remove_background env g req =
      if req.method = Method.OPTIONS then (⟨204, .empty⟩, g)
      else
        match g.rembg_session with
        | none =>
          (⟨503, .jsonError "Service not ready" "Background removal model is not loaded"⟩, g)
        | some _ =>
          match req.files_image with
          | none =>
            (⟨400, .jsonError "Bad request" "No image file provided in request"⟩, g)
          | some file =>
            match validate_image_file (some file) with
            | ((false, error_message), _) =>
              (⟨400, .jsonError "Invalid file" (error_message.getD "")⟩, g)
            | ((true, _), fOpt) =>
              match env.decode (((fOpt.getD file).read).1) with
              | none =>
                (⟨400, .jsonError "Invalid image"
                  "Could not process image file. Please ensure it's a valid image."⟩, g)
              | some img0 =>
                match env.removeBg (env.savePNG
                    (if ¬ (img0.mode = "RGB" ∨ img0.mode = "RGBA")
                     then env.convert img0 "RGB" else img0)) true with
                | none =>
                  (⟨500, .jsonError "Internal server error"
                    "An error occurred while processing your image. Please try again."⟩, g)
                | some output_data => (⟨200, .png output_data⟩, g) := rfl

/-- The handler never produces status 413: the size check lives in the
validator, whose failures are all mapped to 400 (`MAX_CONTENT_LENGTH` is
never configured, so the registered 413 handler is unreachable from the
request path). -/
lemma remove_background_status_ne_413 (env : Env) (g : GlobalState) (req : Request) :
    (remove_background env g req).1.status ≠ 413 := by
  rw [remove_background_eq]
  repeat' split
  all_goals simp

/-- Responses on the oversize path: validation fails with the file-too-large
message and the handler maps that to 400 "Invalid file". -/
lemma oversize_response (env : Env) (g : GlobalState) (s : Session) (f : FileStream)
    (hs : g.rembg_session = some s) (hn : f.filename ≠ "")
    (ha : allowed_file f.filename = true) (hb : MAX_FILE_SIZE < f.content.length) :
    remove_background env g ⟨Method.POST, some f⟩ =
      (⟨400, .jsonError "Invalid file" FILE_TOO_LARGE_MSG⟩, g) := by
  have hv : validate_image_file (some f) =
      ((false, some FILE_TOO_LARGE_MSG), some { f with pos := 0 }) := by
    rw [validate_some_eq]
    simp [hn, ha, hb]
  rw [remove_background_eq]
  simp [hs, hv]

lemma bigFile_oversize : MAX_FILE_SIZE < bigFile.content.length := by
  have h : bigFile.content.length = MAX_FILE_SIZE + 1 := by
    simp [bigFile]
  omega

lemma takeWhile_append_of_all {p : Char → Bool} :
    ∀ (l r : List Char), (∀ x ∈ l, p x = true) →
      (l ++ r).takeWhile p = l ++ r.takeWhile p := by
  intro l r h
  induction l with
  | nil => simp
  | cons a t ih =>
    have ha : p a = true := h a (List.mem_cons_self a t)
    have ht : ∀ x ∈ t, p x = true := fun x hx => h x (List.mem_cons_of_mem a hx)
    simp [List.takeWhile_cons, ha, ih ht]

/-- If the extension contains no dot, the suffix after the last dot of
`base ++ "." ++ ext` is exactly `ext`. -/
lemma afterLastDot_concat (base ext : String) (h : ext.data.contains '.' = false) :
    afterLastDot (base ++ "." ++ ext) = ext := by
  have hd : (base ++ "." ++ ext).data = base.data ++ '.' :: ext.data := by
    simp [String.data_append]
  have hmem : ∀ x ∈ ext.data.reverse, (x != '.') = true := by
    intro x hx
    have : x ∈ ext.data := List.mem_reverse.mp hx
    have hne : x ≠ '.' := by
      intro he
      subst he
      simp at h
      exact h this
    simp [hne]
  unfold afterLastDot
  rw [hd]
  have hrev : (base.data ++ '.' :: ext.data).reverse =
      ext.data.reverse ++ '.' :: base.data.reverse := by
    simp
  rw [hrev, takeWhile_append_of_all _ _ hmem]
  simp [List.takeWhile_cons]

/-! ## Claims about the validator -/

/-- C6: For every file input, the validator applies exactly four checks in
order, short-circuiting on the first failure: (1) file present, else
"No file provided"; (2) filename non-empty, else "No file selected";
(3) filename has an extension whose lowercased form is in
{png, jpg, jpeg, webp}, else a "file type not allowed" message enumerating
the allowed types; (4) measured size at most 10 MiB, else a "file too
large" message stating the limit; and it returns success if and only if
all four pass. -/
theorem validator_checks_in_order (f : FileStream) :
    validate_image_file none = ((false, some "No file provided"), none)
  ∧ (f.filename = "" → validate_image_file (some f) = ((false, some "No file selected"), some f))
  ∧ (f.filename ≠ "" → allowed_file f.filename = false →
      validate_image_file (some f) = ((false, some FILE_TYPE_MSG), some f))
  ∧ (f.filename ≠ "" → allowed_file f.filename = true → MAX_FILE_SIZE < f.content.length →
      validate_image_file (some f) = ((false, some FILE_TOO_LARGE_MSG), some { f with pos := 0 }))
  ∧ (f.filename ≠ "" → allowed_file f.filename = true → f.content.length ≤ MAX_FILE_SIZE →
      validate_image_file (some f) = ((true, none), some { f with pos := 0 }))
  ∧ ((validate_image_file (some f)).1.1 = true ↔
      f.filename ≠ "" ∧ allowed_file f.filename = true ∧ f.content.length ≤ MAX_FILE_SIZE) := by
  refine ⟨rfl, ?_, ?_, ?_, ?_, ?_⟩
  · intro h1
    rw [validate_some_eq]
    simp [h1]
  · intro h1 h2
    rw [validate_some_eq]
    simp [h1, h2]
  · intro h1 h2 h3
    rw [validate_some_eq]
    simp [h1, h2, h3]
  · intro h1 h2 h3
    rw [validate_some_eq]
    simp [h1, h2, Nat.not_lt.mpr h3]
  · constructor
    · intro h
      by_cases h1 : f.filename = ""
      · rw [validate_some_eq] at h
        simp [h1] at h
      by_cases h2 : allowed_file f.filename
      · by_cases h3 : f.content.length ≤ MAX_FILE_SIZE
        · exact ⟨h1, h2, h3⟩
        · rw [validate_some_eq] at h
          simp [h1, h2, Nat.lt_of_not_le h3] at h
      · rw [validate_some_eq] at h
        simp [h1, h2] at h
    · rintro ⟨h1, h2, h3⟩
      rw [validate_some_eq]
      simp [h1, h2, Nat.not_lt.mpr h3]

/-- Witness for C6: a 1-byte file named "x.PNG" (mixed-case extension)
passes all four checks. -/
theorem validator_checks_in_order_witness :
    validate_image_file (some ⟨[1], 0, "x.PNG"⟩) = ((true, none), some ⟨[1], 0, "x.PNG"⟩) :=
  (validator_checks_in_order ⟨[1], 0, "x.PNG"⟩).2.2.2.2.1 (by decide) (by decide) (by decide)

/-- C7: Validation has no side effect beyond reading the stream to measure
its length: the content and filename are unchanged, the position is either
untouched or reset to 0, and when the handler gave the validator a stream
at position 0 the full content can still be read afterwards. -/
theorem validator_frame_effect (f : FileStream) :
    ∃ f' : FileStream, (validate_image_file (some f)).2 = some f'
      ∧ f'.content = f.content
      ∧ f'.filename = f.filename
      ∧ (f'.pos = f.pos ∨ f'.pos = 0)
      ∧ (f.pos = 0 → (FileStream.read f').1 = f.content) := by
  rw [validate_some_eq]
  by_cases h1 : f.filename = ""
  · exact ⟨f, by simp [h1], rfl, rfl, Or.inl rfl, fun h0 => by simp [FileStream.read, h0]⟩
  by_cases h2 : allowed_file f.filename
  · by_cases h3 : MAX_FILE_SIZE < f.content.length
    · exact ⟨{ f with pos := 0 }, by simp [h1, h2, h3], rfl, rfl, Or.inr rfl,
        fun _ => by simp [FileStream.read]⟩
    · exact ⟨{ f with pos := 0 }, by simp [h1, h2, h3], rfl, rfl, Or.inr rfl,
        fun _ => by simp [FileStream.read]⟩
  · exact ⟨f, by simp [h1, h2], rfl, rfl, Or.inl rfl, fun h0 => by simp [FileStream.read, h0]⟩

/-- Witness for C7 at a concrete 1-byte webp file. -/
theorem validator_frame_effect_witness :
    ∃ f' : FileStream, (validate_image_file (some ⟨[9], 0, "b.webp"⟩)).2 = some f'
      ∧ f'.content = (⟨[9], 0, "b.webp"⟩ : FileStream).content
      ∧ f'.filename = (⟨[9], 0, "b.webp"⟩ : FileStream).filename
      ∧ (f'.pos = (⟨[9], 0, "b.webp"⟩ : FileStream).pos ∨ f'.pos = 0)
      ∧ ((⟨[9], 0, "b.webp"⟩ : FileStream).pos = 0 →
          (FileStream.read f').1 = (⟨[9], 0, "b.webp"⟩ : FileStream).content) :=
  validator_frame_effect ⟨[9], 0, "b.webp"⟩

/-- C10: The extension check inspects only the substring after the last
dot: a filename with no dot is rejected; ".png" is accepted; the verdict
on `base ++ "." ++ ext` (for a dot-free ext) depends only on ext, so
"a.exe.png" is accepted and "a.png.exe" is rejected. -/
theorem extension_uses_last_dot_only :
    (∀ name : String, name.data.contains '.' = false → allowed_file name = false)
  ∧ allowed_file ".png" = true
  ∧ (∀ base ext : String, ext.data.contains '.' = false →
      allowed_file (base ++ "." ++ ext) = ALLOWED_EXTENSIONS.contains (strLower ext))
  ∧ allowed_file "a.exe.png" = true
  ∧ allowed_file "a.png.exe" = false := by
  refine ⟨?_, by decide, ?_, by decide, by decide⟩
  · intro name h
    unfold allowed_file
    rw [h]
    simp
  · intro base ext h
    have hc : (base ++ "." ++ ext).data.contains '.' = true := by
      simp [String.data_append]
    simp [allowed_file, hc, afterLastDot_concat base ext h]

/-- Witness for C10: a dot-free filename is rejected. -/
theorem extension_uses_last_dot_only_witness :
    allowed_file "README" = false :=
  extension_uses_last_dot_only.1 "README" (by decide)

/-! ## Claims about the request handler -/

/-- C1 counterexample: a 10 MiB + 1 byte upload with a valid extension and
a loaded session gets status 400, not 413, from POST /api/remove-bg. -/
theorem oversize_gets_400_counterexample :
    (remove_background trivEnv loadedState ⟨Method.POST, some bigFile⟩).1.status = 400
  ∧ ¬ (remove_background trivEnv loadedState ⟨Method.POST, some bigFile⟩).1.status = 413 := by
  have h := oversize_response trivEnv loadedState ⟨"isnet-general-use"⟩ bigFile rfl
    (by decide) (by decide) bigFile_oversize
  rw [h]
  exact ⟨rfl, by decide⟩

/-- C1 (amended): For every uploaded file that reaches the size check and
whose measured byte length exceeds 10 MiB, the POST /api/remove-bg
response has status 400 with error "Invalid file" and the file-too-large
message; no request path of the handler ever produces status 413 (the
registered 413 error handler is unreachable because `MAX_CONTENT_LENGTH`
is never configured). -/
theorem oversize_yields_400_never_413 (env : Env) (g : GlobalState) (s : Session)
    (f : FileStream) (hs : g.rembg_session = some s) (hn : f.filename ≠ "")
    (ha : allowed_file f.filename = true) (hb : MAX_FILE_SIZE < f.content.length) :
    remove_background env g ⟨Method.POST, some f⟩ =
      (⟨400, Body.jsonError "Invalid file" FILE_TOO_LARGE_MSG⟩, g)
  ∧ ∀ (env' : Env) (g' : GlobalState) (req' : Request),
      (remove_background env' g' req').1.status ≠ 413 :=
  ⟨oversize_response env g s f hs hn ha hb,
   fun env' g' req' => remove_background_status_ne_413 env' g' req'⟩

/-- Witness for C1 at the concrete oversize file. -/
theorem oversize_yields_400_never_413_witness :
    remove_background trivEnv loadedState ⟨Method.POST, some bigFile⟩ =
      (⟨400, Body.jsonError "Invalid file" FILE_TOO_LARGE_MSG⟩, loadedState)
  ∧ ∀ (env' : Env) (g' : GlobalState) (req' : Request),
      (remove_background env' g' req').1.status ≠ 413 :=
  oversize_yields_400_never_413 trivEnv loadedState ⟨"isnet-general-use"⟩ bigFile rfl
    (by decide) (by decide) bigFile_oversize

/-- C2: While the session is uninitialized, every POST /api/remove-bg
request gets 503 "Service not ready" — for every environment and payload,
so independently of validity and before any validation or decoding — and
in the same state GET /health reports model "not_loaded". -/
theorem not_ready_returns_503 (env : Env) (g : GlobalState) (req : Request)
    (hs : g.rembg_session = none) (hm : req.method = Method.POST) :
    remove_background env g req =
      (⟨503, Body.jsonError "Service not ready" "Background removal model is not loaded"⟩, g)
  ∧ health_check g none = ⟨200, Body.jsonHealth "healthy" (some "not_loaded") none⟩ := by
  constructor
  · rw [remove_background_eq]
    simp [hs, hm]
  · unfold health_check
    simp [hs]

/-- Witness for C2: uninitialized state, valid-looking payload. -/
theorem not_ready_returns_503_witness :
    remove_background trivEnv ⟨none⟩ ⟨Method.POST, some smallFile⟩ =
      (⟨503, Body.jsonError "Service not ready" "Background removal model is not loaded"⟩, ⟨none⟩)
  ∧ health_check ⟨none⟩ none = ⟨200, Body.jsonHealth "healthy" (some "not_loaded") none⟩ :=
  not_ready_returns_503 trivEnv ⟨none⟩ ⟨Method.POST, some smallFile⟩ rfl rfl

/-- C3: A model-load failure at startup is fatal: when `new_session` raises,
`init_model` re-raises and `app.run` is never reached; when it succeeds,
the listener starts with the session that was created once, before it. -/
theorem startup_failure_is_fatal (ns : String → Option Session) :
    (ns "isnet-general-use" = none → main_startup ns = StartupOutcome.aborted)
  ∧ ∀ s : Session, ns "isnet-general-use" = some s →
      main_startup ns = StartupOutcome.serving ⟨some s⟩ := by
  constructor
  · intro h
    unfold main_startup init_model
    rw [h]
  · intro s h
    unfold main_startup init_model
    rw [h]

/-- Witness for C3: a failing `new_session` aborts startup. -/
theorem startup_failure_is_fatal_witness :
    main_startup (fun _ => none) = StartupOutcome.aborted :=
  (startup_failure_is_fatal (fun _ => none)).1 rfl

/-- C4: For every successfully decoded upload, a decoded mode outside
{RGB, RGBA} is converted to RGB, and the (possibly converted) image is
re-serialized to PNG before segmentation: the bytes handed to
`rembg.remove` are exactly `savePNG` of an image whose mode is RGB or
RGBA, and the rest of the response depends only on those bytes. -/
theorem inference_input_normalized_png (env : Env) (g : GlobalState) (s : Session)
    (f : FileStream) (img0 : PILImage)
    (hs : g.rembg_session = some s)
    (hv : (validate_image_file (some f)).1.1 = true)
    (hd : env.decode ((((validate_image_file (some f)).2.getD f).read).1) = some img0) :
    ∃ img1 : PILImage,
      img1 = (if ¬ (img0.mode = "RGB" ∨ img0.mode = "RGBA")
              then env.convert img0 "RGB" else img0)
      ∧ (img1.mode = "RGB" ∨ img1.mode = "RGBA")
      ∧ remove_background env g ⟨Method.POST, some f⟩ =
          ((match env.removeBg (env.savePNG img1) true with
            | none => ⟨500, Body.jsonError "Internal server error"
                "An error occurred while processing your image. Please try again."⟩
            | some output_data => ⟨200, Body.png output_data⟩), g) := by
  rcases hval : validate_image_file (some f) with ⟨⟨b, em⟩, fo⟩
  rw [hval] at hv hd
  have hb : b = true := hv
  subst hb
  have hd' : env.decode (((fo.getD f).read).1) = some img0 := hd
  refine ⟨_, rfl, ?_, ?_⟩
  · by_cases hm : img0.mode = "RGB" ∨ img0.mode = "RGBA"
    · simp [hm]
    · simp [hm, Env.convert]
  · rw [remove_background_eq]
    simp [hval, hs, hd']
    split <;> rfl

/-- Witness for C4: a grayscale (mode "L") decode is converted to RGB and
re-encoded before inference. -/
theorem inference_input_normalized_png_witness :
    ∃ img1 : PILImage,
      img1 = (if ¬ ((⟨"L", 7⟩ : PILImage).mode = "RGB" ∨ (⟨"L", 7⟩ : PILImage).mode = "RGBA")
              then grayEnv.convert ⟨"L", 7⟩ "RGB" else ⟨"L", 7⟩)
      ∧ (img1.mode = "RGB" ∨ img1.mode = "RGBA")
      ∧ remove_background grayEnv loadedState ⟨Method.POST, some smallFile⟩ =
          ((match grayEnv.removeBg (grayEnv.savePNG img1) true with
            | none => ⟨500, Body.jsonError "Internal server error"
                "An error occurred while processing your image. Please try again."⟩
            | some output_data => ⟨200, Body.png output_data⟩), loadedState) :=
  inference_input_normalized_png grayEnv loadedState ⟨"isnet-general-use"⟩ smallFile ⟨"L", 7⟩
    rfl (by decide) rfl

/-- C5: An upload that passes validation but whose bytes `Image.open`
cannot parse gets 400 with error "Invalid image" and a fixed client
message carrying no codec exception detail — never 500. -/
theorem undecodable_upload_returns_400 (env : Env) (g : GlobalState) (s : Session)
    (f : FileStream)
    (hs : g.rembg_session = some s)
    (hv : (validate_image_file (some f)).1.1 = true)
    (hd : env.decode ((((validate_image_file (some f)).2.getD f).read).1) = none) :
    remove_background env g ⟨Method.POST, some f⟩ =
      (⟨400, Body.jsonError "Invalid image"
        "Could not process image file. Please ensure it's a valid image."⟩, g) := by
  rcases hval : validate_image_file (some f) with ⟨⟨b, em⟩, fo⟩
  rw [hval] at hv hd
  have hb : b = true := hv
  subst hb
  have hd' : env.decode (((fo.getD f).read).1) = none := hd
  rw [remove_background_eq]
  simp [hval, hs, hd']

/-- Witness for C5: a text file renamed to .jpg (decoder raises). -/
theorem undecodable_upload_returns_400_witness :
    remove_background noDecodeEnv loadedState ⟨Method.POST, some smallFile⟩ =
      (⟨400, Body.jsonError "Invalid image"
        "Could not process image file. Please ensure it's a valid image."⟩, loadedState) :=
  undecodable_upload_returns_400 noDecodeEnv loadedState ⟨"isnet-general-use"⟩ smallFile
    rfl (by decide) rfl

/-- C8: GET /health never propagates an exception: with no internal fault
it returns 200 with status "healthy" and model "loaded"/"not_loaded"
according to the session; with any internal fault it returns 503 with
status "unhealthy". -/
theorem health_check_never_propagates (g : GlobalState) (fault : Option String) :
    (fault = none → health_check g fault =
      ⟨200, Body.jsonHealth "healthy"
        (some (if g.rembg_session.isSome then "loaded" else "not_loaded")) none⟩)
  ∧ ∀ e : String, fault = some e →
      health_check g fault = ⟨503, Body.jsonHealth "unhealthy" none (some e)⟩ := by
  constructor
  · intro h
    rw [h]
    rfl
  · intro e h
    rw [h]
    rfl

/-- Witness for C8: a fault while computing status yields 503 "unhealthy". -/
theorem health_check_never_propagates_witness :
    health_check loadedState (some "boom") =
      ⟨503, Body.jsonHealth "unhealthy" none (some "boom")⟩ :=
  (health_check_never_propagates loadedState (some "boom")).2 "boom" rfl

/-- C9: The request handler mutates no global state (in particular it never
writes `rembg_session`), so submitting the same request twice yields the
same response: the second run starts from the state the first one left. -/
theorem handler_is_stateless (env : Env) (g : GlobalState) (req : Request) :
    (remove_background env g req).2 = g
  ∧ remove_background env ((remove_background env g req).2) req = remove_background env g req := by
  have h2 : (remove_background env g req).2 = g := by
    rw [remove_background_eq]
    repeat' split
    all_goals rfl
  exact ⟨h2, by rw [h2]⟩

end RenderBG
